import Mathlib

/-!
Verification of the BuildXL per-pip sandbox state tracker against its
natural-language specification.

Embedded sources:
* `Public/Src/Sandbox/MacOs/Sandbox/Src/SandboxedPip.cpp` — the pip tracker:
  construction (`init` / `create`) and the cache governor
  (`RefreshDisableCaching` / `ShouldDisableCaching` / the `PCT` macro).
* `Public/Src/Sandbox/MacOs/Sandbox/Src/SysCtl.hpp` — the global tunables
  (`g_bxl_enable_cache`, `g_bxl_disable_cache_min_entries`,
  `g_bxl_disable_cache_max_hit_pct`), modelled as a configuration record.
* `Public/Src/Sandbox/Windows/DetoursServices/CanonicalizedPath.h` — the
  canonical path value type (move construction, `GetPathString`,
  `GetPathStringWithoutTypePrefix`).

External collaborators that the tracker calls but whose code is not among
the three source files (`Trie::createPathTrie`, `ThreadLocal::create`,
`FileAccessManifest::init`, the hook layer driving `resolve`) are modelled
from the specification; each such definition carries a doc comment starting
with `Modelled from the spec:`.
-/

namespace BuildXL

/-! ### Exact model of the double-precision percentage computation

The C macro `# define PCT(a, b) (int)(((a) * 1.0) / ((a) + (b)) * 100)`
computes in IEEE-754 binary64 ("double") arithmetic: `a` is converted to
double exactly (counter values are far below `2^53`), the integer sum
`a + b` is converted exactly, the quotient and the product by `100` are
each correctly rounded to the nearest double (ties to even), and the final
`(int)` cast truncates toward zero.  All intermediate values here are
nonnegative, finite and either zero or in the binary64 normal range, so we
model the rounding exactly on nonnegative rationals represented as pairs
`(n, d)` of naturals with value `n / d`. -/

/-- Round the nonnegative fraction `n / d` (with `d ≠ 0`) to the nearest
natural number, ties to even. -/
def rnde (n d : ℕ) : ℕ :=
  let f := n / d
  let r := n % d
  if 2 * r < d then f
  else if d < 2 * r then f + 1
  else if f % 2 = 0 then f else f + 1

/-- Fuel-driven helper for `blen`: number of binary digits of `n`
(`0` for `0`), structurally recursive so that it evaluates in the kernel. -/
def blenAux : ℕ → ℕ → ℕ
  | 0, _ => 0
  | fuel + 1, n => if n = 0 then 0 else blenAux fuel (n / 2) + 1

/-- Number of binary digits of `n`; for `n ≥ 1` the floor of `log2 n` is
`blen n - 1`.  The fuel `n` is sufficient since `log2 n < n` for `n ≥ 1`. -/
def blen (n : ℕ) : ℕ := blenAux n n

/-- Does `2 ^ k ≤ n / d` hold (with `k : ℤ`, `n` and `d` positive)?
Decided by cross-multiplication, avoiding rational arithmetic. -/
def le2pow (k : ℤ) (n d : ℕ) : Bool :=
  if 0 ≤ k then decide (2 ^ k.toNat * d ≤ n) else decide (d ≤ n * 2 ^ (-k).toNat)

/-- Floor of the base-2 logarithm of the positive fraction `n / d`: from
the digit counts of `n` and `d` the answer is `blen n - blen d` or one
less, and one cross-multiplied comparison decides which. -/
def qfloorLog2 (n d : ℕ) : ℤ :=
  let k0 : ℤ := (blen n : ℤ) - (blen d : ℤ)
  if le2pow k0 n d then k0 else k0 - 1

/-- Round the nonnegative fraction `n / d` to the nearest IEEE-754 binary64
value (round to nearest, ties to even), returned again as a fraction whose
denominator is a power of two.  Assumes the value is zero or in the normal
range (always the case for the values arising in `PCT`): the value is
scaled into the 53-bit significand window `[2^52, 2^53)`, rounded to an
integer significand with ties to even, and scaled back. -/
def fl (n d : ℕ) : ℕ × ℕ :=
  if n = 0 then (0, 1)
  else
    let e : ℤ := qfloorLog2 n d - 52
    let m : ℕ :=
      if 0 ≤ e then rnde n (d * 2 ^ e.toNat)
      else rnde (n * 2 ^ (-e).toNat) d
    if 0 ≤ e then (m * 2 ^ e.toNat, 1) else (m, 2 ^ (-e).toNat)

/-- The `PCT` macro of SandboxedPip.cpp line 130:
`(int)(((a) * 1.0) / ((a) + (b)) * 100)` — the correctly rounded binary64
quotient `a / (a + b)`, the correctly rounded binary64 product with `100`,
and the truncating `int` cast (the value is nonnegative, so truncation is
floor, i.e. natural division).  In C a zero divisor `a + b = 0` is
undefined behaviour; here `fl 0 0 = (0, 1)` makes `PCT 0 0 = 0`, and the
theorems that use `PCT` either assume or prove (claim C9) that the divisor
is nonzero. -/
def PCT (a b : ℕ) : ℤ :=
  let q := fl a (a + b)
  let p := fl (100 * q.1) q.2
  ((p.1 / p.2 : ℕ) : ℤ)

/-- The hit percentage exactly as the specification words it:
`round(hits / (hits + misses) * 100)`, rounding the exact rational to the
nearest integer (half rounds up): `⌊(100·hits) / (hits + misses) + 1/2⌋`
computed by natural division as `(200·hits + hits + misses) / (2·(hits +
misses))`.  This definition follows the spec text, not the source; it is
compared against `PCT` (which the source computes) for claim C1. -/
def specRoundHitPct (hits misses : ℕ) : ℤ :=
  (((2 * (100 * hits) + (hits + misses)) / (2 * (hits + misses)) : ℕ) : ℤ)

example : PCT 2 1 = 66 := by decide
example : specRoundHitPct 2 1 = 67 := by decide
example : PCT 29 71 = 28 := by decide
example : PCT 1 1 = 50 := by decide
example : PCT 0 1 = 0 := by decide
example : PCT 1 2 = 33 := by decide
example : specRoundHitPct 1 2 = 33 := by decide
example : PCT 3 1 = 75 := by decide
example : PCT 0 0 = 0 := by decide

/-! ### Configuration (SysCtl.hpp)

The tunables are global C `int`s registered with sysctl.  `g_bxl_enable_cache`
is only ever used as a truth value (`!g_bxl_enable_cache` in
`SandboxedPip::init`), so it is modelled as `Bool`; the two thresholds are
compared against counts and against `PCT`, so they are modelled as `ℤ`
(a C `int` may be negative). -/

/-- The sysctl-backed global tunables declared in SysCtl.hpp that
SandboxedPip.cpp reads. -/
structure Config where
  g_bxl_enable_cache : Bool
  g_bxl_disable_cache_min_entries : ℤ
  g_bxl_disable_cache_max_hit_pct : ℤ
deriving DecidableEq

/-! ### Collaborators: Trie and ThreadLocal

The classes `Trie` and `ThreadLocal` are declared and used by
SandboxedPip.cpp but their implementation is not among the source files;
they are modelled from the specification.  Only identity and entry count
are observable in the claims, so a trie is a tagged count and a thread
local table is a tag. -/

/-- Modelled from the spec (§4.2 DecisionCache): a decision-cache instance.
Only its identity (`tag`, distinguishing the distinct heap instances that
`Trie::createPathTrie` allocates) and its entry count (`getCount`) are
relevant to the claims; the path-to-decision contents are not observed by
any claim. -/
structure Trie where
  tag : ℕ
  count : ℕ
deriving DecidableEq

/-- Modelled from the spec (§4.2, §4.5): `Trie::createPathTrie` (Trie.cpp
is not among the source files) allocates a fresh empty path trie, or fails
returning null — `SandboxedPip::init` checks its result against `nullptr`.
The allocation outcome and the fresh identity are supplied by the caller as
oracle inputs. -/
def createPathTrie (allocOk : Bool) (freshTag : ℕ) : Option Trie :=
  if allocOk then some { tag := freshTag, count := 0 } else none

/-- Modelled from the spec (§4.3 PerThreadLastLookup): a per-thread
last-lookup table.  No claim observes its contents, only its presence and
identity. -/
structure ThreadLocal where
  tag : ℕ
deriving DecidableEq

/-- Modelled from the spec (§4.3, §4.5): `ThreadLocal::create`
(ThreadLocal.cpp is not among the source files) allocates a fresh empty
per-thread lookup table, or fails returning null — `SandboxedPip::init`
checks its result against `nullptr`. -/
def ThreadLocal.create (allocOk : Bool) (freshTag : ℕ) : Option ThreadLocal :=
  if allocOk then some { tag := freshTag } else none

/-- The hit and miss counters of the `counters_` field (`numCacheHits`,
`numCacheMisses`), zero-initialized by `counters_ = {0}` in
`SandboxedPip::init`.  Counter values are modelled as `ℕ` (the counters
only ever increase and their numeric value feeds `PCT`). -/
structure Counters where
  numCacheHits : ℕ
  numCacheMisses : ℕ
deriving DecidableEq

/-! ### The pip tracker state (SandboxedPip) -/

/-- The mutable state of a `SandboxedPip` object: the fields assigned by
`SandboxedPip::init` and read or written by `RefreshDisableCaching`,
`ShouldDisableCaching` and `free`.  Pointer-valued fields
(`pathCache_`, `oldPathCache_`, `lastPathLookup_`) are `Option`s, `none`
modelling a null pointer.  The parsed manifest `fam_` and the retained
`payload_` buffer have no observable content in any claim and are omitted;
their failure behaviour is captured in `SandboxedPip.init` below. -/
structure SandboxedPip where
  clientPid : ℤ
  processId : ℤ
  processTreeCount : ℕ
  counters : Counters
  disableCaching : Bool
  cacheCallCnt : ℕ
  pathCache : Option Trie
  oldPathCache : Option Trie
  lastPathLookup : Option ThreadLocal
deriving DecidableEq

/-- The outcomes of the external calls performed by `SandboxedPip::init`,
supplied as oracle inputs: whether `super::init()` succeeds, whether
`fam_.init` reports parse errors for the payload (`fam_.HasErrors()`), and
the two allocation outcomes together with fresh identities for the
allocated objects. -/
structure InitEnv where
  superInitOk : Bool
  famHasErrors : Bool
  trieAllocOk : Bool
  trieTag : ℕ
  tlAllocOk : Bool
  tlTag : ℕ
deriving DecidableEq

/-- SandboxedPip.cpp lines 10–48, `SandboxedPip::init`: returns the fully
initialized state on success and `none` on any failure (`super::init`
failing, `fam_.HasErrors()`, `Trie::createPathTrie` or
`ThreadLocal::create` returning null).  The field assignments mirror lines
17–23 (`processTreeCount_ = 1`, `counters_ = {0}`,
`disableCaching_ = !g_bxl_enable_cache`, `cacheCallCnt_ = 0`) and lines
34–45 (`oldPathCache_ = nullptr`, then the two checked allocations). -/
def SandboxedPip.init (clientPid processPid : ℤ) (cfg : Config)
    (env : InitEnv) : Option SandboxedPip :=
  if !env.superInitOk then none
  else if env.famHasErrors then none
  else
    match createPathTrie env.trieAllocOk env.trieTag with
    | none => none
    | some cache =>
      match ThreadLocal.create env.tlAllocOk env.tlTag with
      | none => none
      | some tl =>
        some
          { clientPid := clientPid
            processId := processPid
            processTreeCount := 1
            counters := { numCacheHits := 0, numCacheMisses := 0 }
            disableCaching := !cfg.g_bxl_enable_cache
            cacheCallCnt := 0
            pathCache := some cache
            oldPathCache := none
            lastPathLookup := some tl }

/-- SandboxedPip.cpp lines 68–86, `SandboxedPip::create`: `new SandboxedPip`
may fail (`newOk = false` models `instance == nullptr`); otherwise `init`
runs, and on `init` failure the partly constructed instance is released
(`OSSafeReleaseNULL(instance)`) and `nullptr` is returned — modelled by
returning `none`, so no object escapes. -/
def SandboxedPip.create (clientPid processPid : ℤ) (cfg : Config)
    (newOk : Bool) (env : InitEnv) : Option SandboxedPip :=
  if !newOk then none
  else SandboxedPip.init clientPid processPid cfg env

/-- The entry count of the active cache, `pathCache_->getCount()`.  In C a
null `pathCache_` would fault here; the call sites guard this (the count is
only read while the tracker holds a live cache), and `none` is mapped to
`0` to keep the function total — the theorems that depend on the count
carry the hypothesis `s.pathCache = some t`. -/
def pathCacheCount (s : SandboxedPip) : ℕ :=
  match s.pathCache with
  | some t => t.count
  | none => 0

/-- SandboxedPip.cpp lines 132–139, `SandboxedPip::ShouldDisableCaching`:
true when the cache entry count is above `g_bxl_disable_cache_min_entries`
and `PCT(numCacheHits, numCacheMisses)` is below
`g_bxl_disable_cache_max_hit_pct`. -/
def ShouldDisableCaching (s : SandboxedPip) (cfg : Config) : Bool :=
  decide ((pathCacheCount s : ℤ) > cfg.g_bxl_disable_cache_min_entries) &&
  decide (PCT s.counters.numCacheHits s.counters.numCacheMisses <
    cfg.g_bxl_disable_cache_max_hit_pct)

/-- The outcomes of the external interactions inside
`RefreshDisableCaching`: the allocation outcome and fresh identity for the
replacement trie, and whether the `OSCompareAndSwapPtr` succeeds.  The swap
compares `pathCache_` against the value read moments earlier at line 111;
sequentially it always succeeds, and `casWins = false` models a concurrent
`RefreshDisableCaching` having replaced `pathCache_` in between. -/
structure RefreshEnv where
  newTrieAllocOk : Bool
  newTrieTag : ℕ
  casWins : Bool
deriving DecidableEq

/-- The result of one `RefreshDisableCaching` call: the tracker state after
the call, the returned `bool`, and the list of trie instances passed to
`OSSafeReleaseNULL` during the call (`OSSafeReleaseNULL(nullptr)` is a
no-op, so a failed replacement allocation releases nothing). -/
structure RefreshResult where
  state : SandboxedPip
  ret : Bool
  released : List Trie
deriving DecidableEq

/-- SandboxedPip.cpp lines 103–128, `SandboxedPip::RefreshDisableCaching`:
if `disableCaching_` is already set, return it unchanged; otherwise, when
`ShouldDisableCaching()` holds, set `disableCaching_ = true`, allocate a
replacement trie (`Trie::createPathTrie()`, unchecked here) and
compare-and-swap it into `pathCache_`.  On a successful swap the outgoing
cache is saved in `oldPathCache_` for deferred reclamation; on a failed
swap the speculative replacement is released.  The function returns
`disableCaching_`. -/
def RefreshDisableCaching (s : SandboxedPip) (cfg : Config)
    (env : RefreshEnv) : RefreshResult :=
  if s.disableCaching then { state := s, ret := true, released := [] }
  else if ShouldDisableCaching s cfg then
    let oldCache := s.pathCache
    let newCache := createPathTrie env.newTrieAllocOk env.newTrieTag
    let s1 := { s with disableCaching := true }
    if env.casWins then
      { state := { s1 with pathCache := newCache, oldPathCache := oldCache }
        ret := true
        released := [] }
    else
      { state := s1, ret := true, released := newCache.toList }
  else { state := s, ret := false, released := [] }

/-! ### The resolve probe (hook layer), modelled from the spec

The code that drives `RefreshDisableCaching` — the `resolve` path that
updates the counters, inserts into the cache on a miss and then runs the
governor — is not among the source files.  Claims C2 and C9 quantify over
it, so it is modelled from the specification (§4.4, §4.5). -/

/-- Modelled from the spec (§4.4): the counter update of a cache probe that
hit — resolved without manifest consultation. -/
def bumpHit (s : SandboxedPip) : SandboxedPip :=
  { s with counters :=
    { s.counters with numCacheHits := s.counters.numCacheHits + 1 } }

/-- Modelled from the spec (§4.4): the counter update of a cache probe that
missed — required manifest consultation. -/
def bumpMiss (s : SandboxedPip) : SandboxedPip :=
  { s with counters :=
    { s.counters with numCacheMisses := s.counters.numCacheMisses + 1 } }

/-- Modelled from the spec (§4.2, §4.5): the insert following a miss.  When
caching is disabled the insert is a no-op; otherwise the add-only trie
insert grows the entry count by one, or leaves it unchanged when the path
was already present (`grew = false`; overwriting is permitted but never
required). -/
def insertAfterMiss (s : SandboxedPip) (grew : Bool) : SandboxedPip :=
  if s.disableCaching then s
  else
    match s.pathCache with
    | none => s
    | some t =>
      if grew then { s with pathCache := some { t with count := t.count + 1 } }
      else s

/-- Modelled from the spec (§4.4, §4.5): the tracker state at which the
governor evaluation runs on the miss path of `resolve` — the miss counter
has been updated and the insert performed before `RefreshDisableCaching`
is called. -/
def missEvalState (s : SandboxedPip) (grew : Bool) : SandboxedPip :=
  insertAfterMiss (bumpMiss s) grew

/-- Modelled from the spec (§4.4): the tracker state at which a governor
evaluation after a cache hit would run — the hit counter has been
updated by the probe. -/
def hitEvalState (s : SandboxedPip) : SandboxedPip := bumpHit s

/-- Modelled from the spec (§4.5): the miss path of `resolve` as far as the
tracker state is concerned — counter update, insert, governor. -/
def resolveMiss (s : SandboxedPip) (cfg : Config) (grew : Bool)
    (env : RefreshEnv) : RefreshResult :=
  RefreshDisableCaching (missEvalState s grew) cfg env

/-- Modelled from the spec (§4.4, §4.5): the hit path of `resolve` as far
as the tracker state is concerned — counter update, then governor. -/
def resolveHit (s : SandboxedPip) (cfg : Config) (env : RefreshEnv) :
    RefreshResult :=
  RefreshDisableCaching (hitEvalState s) cfg env

/-! ### CanonicalizedPath (CanonicalizedPath.h)

The `PathType` enumerators are the four the header discriminates on
(`Null`, `Win32`, `Win32Nt`, `LocalDevice`; the switch in
`GetPathStringWithoutTypePrefix` asserts that no other value occurs, and
the spec §3 lists exactly four root-type tags).  The shared string storage
`std::shared_ptr<std::wstring>` is modelled as an optional tagged character
list: `none` is the null `shared_ptr`, and the tag identifies the
underlying heap allocation that copies share. -/

/-- The root-type tag of a canonicalized path. -/
inductive PathType
  | Null
  | Win32
  | Win32Nt
  | LocalDevice
deriving DecidableEq

/-- The shared `std::wstring` storage behind a `CanonicalizedPath`: the tag
identifies the heap allocation (shared between copies), `data` is the
character content. -/
structure SharedWString where
  tag : ℕ
  data : List Char
deriving DecidableEq

/-- CanonicalizedPath.h: the immutable typed canonical path value —
a `PathType` tag (source field `Type`; renamed because `Type` is reserved
in Lean) and the shared string storage `m_value` (`none` models a null
`shared_ptr`). -/
structure CanonicalizedPath where
  type : PathType
  m_value : Option SharedWString
deriving DecidableEq

/-- CanonicalizedPath.h line 32: `IsNull() { return Type == PathType::Null; }` -/
def CanonicalizedPath.IsNull (p : CanonicalizedPath) : Bool :=
  decide (p.type = PathType.Null)

/-- CanonicalizedPath.h lines 38–40: `GetPathString` returns
`m_value->c_str()` when the storage is live and `nullptr` otherwise. -/
def CanonicalizedPath.GetPathString (p : CanonicalizedPath) :
    Option (List Char) :=
  p.m_value.map SharedWString.data

/-- CanonicalizedPath.h lines 43–56, `GetPathStringWithoutTypePrefix`
(renamed here): the function switches on the tag — `nullptr` for `Null`,
the whole string for `Win32`, and `GetPathString() + 4` (the string with
the four-character root-type marker `\\?\`, `\??\` or `\\.\` skipped) for
`Win32Nt` and `LocalDevice`.  The pointer offset is modelled as dropping
four characters; in C it presupposes live storage, which every
non-null-tagged value the header can construct has. -/
def CanonicalizedPath.GetPathStringWithTypePrefixOmitted (p : CanonicalizedPath) :
    Option (List Char) :=
  match p.type with
  | PathType.Null => none
  | PathType.Win32 => p.GetPathString
  | PathType.Win32Nt => p.GetPathString.map (List.drop 4)
  | PathType.LocalDevice => p.GetPathString.map (List.drop 4)

/-- CanonicalizedPath.h lines 20–24, the move constructor
`CanonicalizedPath(CanonicalizedPath&& other)`: the new value takes
`other`'s tag and moves the `shared_ptr` (taking over the same storage,
leaving the source pointer null per the `std::shared_ptr` move
postcondition), and then `other.Type = PathType::Null`.  Returns the pair
(constructed value, moved-from source). -/
def CanonicalizedPath.moveConstruct (p : CanonicalizedPath) :
    CanonicalizedPath × CanonicalizedPath :=
  ({ type := p.type, m_value := p.m_value },
   { type := PathType.Null, m_value := none })

/-! ### Helper lemmas shared between the claim theorems -/

/-- When `disableCaching_` is already set, `RefreshDisableCaching` takes
the early exit: it neither evaluates the thresholds nor attempts a swap,
releases nothing, leaves the state untouched and returns `true`. -/
theorem refresh_of_disabled (s : SandboxedPip) (cfg : Config)
    (env : RefreshEnv) (h : s.disableCaching = true) :
    RefreshDisableCaching s cfg env =
      { state := s, ret := true, released := [] } := by
  unfold RefreshDisableCaching
  rw [h]
  simp

/-- When caching is still enabled, the flag after `RefreshDisableCaching`
is exactly the value of `ShouldDisableCaching` (both swap branches set it
identically). -/
theorem refresh_flag_eq_should (s : SandboxedPip) (cfg : Config)
    (env : RefreshEnv) (h : s.disableCaching = false) :
    (RefreshDisableCaching s cfg env).state.disableCaching =
      ShouldDisableCaching s cfg := by
  unfold RefreshDisableCaching
  rw [h]
  by_cases hs : ShouldDisableCaching s cfg
  · cases hc : env.casWins <;> simp [hs, hc]
  · simp [hs, h]

/-- The spec-modelled probe bookkeeping never touches the
`disableCaching_` flag. -/
theorem missEvalState_flag (s : SandboxedPip) (grew : Bool) :
    (missEvalState s grew).disableCaching = s.disableCaching := by
  unfold missEvalState insertAfterMiss bumpMiss
  cases h : s.disableCaching <;> cases s.pathCache <;> cases grew <;> simp [h]

/-- The spec-modelled insert leaves the counters alone. -/
theorem missEvalState_counters (s : SandboxedPip) (grew : Bool) :
    (missEvalState s grew).counters =
      { s.counters with numCacheMisses := s.counters.numCacheMisses + 1 } := by
  unfold missEvalState insertAfterMiss bumpMiss
  cases s.disableCaching <;> cases s.pathCache <;> cases grew <;> simp

/-! ### Concrete sample values used by counterexamples and witnesses -/

/-- A tracker with caching enabled, one cache entry, 2 hits and 1 miss:
the observed hit ratio is 2/3, whose truncated percentage is 66 and whose
rounded percentage is 67. -/
def samplePip : SandboxedPip where
  clientPid := 1
  processId := 2
  processTreeCount := 1
  counters := { numCacheHits := 2, numCacheMisses := 1 }
  disableCaching := false
  cacheCallCnt := 0
  pathCache := some { tag := 0, count := 1 }
  oldPathCache := none
  lastPathLookup := some { tag := 0 }

/-- Tunables: caching on, `MIN_ENTRIES = 0`, `MAX_HIT_PCT = 67`. -/
def sampleCfg : Config where
  g_bxl_enable_cache := true
  g_bxl_disable_cache_min_entries := 0
  g_bxl_disable_cache_max_hit_pct := 67

/-- Refresh oracle: replacement allocation succeeds (fresh tag 9) and the
compare-and-swap wins. -/
def sampleEnv : RefreshEnv where
  newTrieAllocOk := true
  newTrieTag := 9
  casWins := true

/-- Refresh oracle: replacement allocation succeeds but a concurrent call
replaced the cache in between, so the compare-and-swap loses. -/
def envCasLose : RefreshEnv where
  newTrieAllocOk := true
  newTrieTag := 9
  casWins := false

/-- Refresh oracle: the replacement allocation fails (`Trie::createPathTrie`
returns null) while the compare-and-swap wins. -/
def envAllocFail : RefreshEnv where
  newTrieAllocOk := false
  newTrieTag := 7
  casWins := true

/-- A tracker with caching enabled, five cache entries and a 0/1 hit
record, so every positive threshold pair triggers the governor. -/
def pipLowHit : SandboxedPip where
  clientPid := 1
  processId := 2
  processTreeCount := 1
  counters := { numCacheHits := 0, numCacheMisses := 1 }
  disableCaching := false
  cacheCallCnt := 0
  pathCache := some { tag := 3, count := 5 }
  oldPathCache := none
  lastPathLookup := some { tag := 0 }

/-- Tunables: caching on, `MIN_ENTRIES = 0`, `MAX_HIT_PCT = 100`. -/
def cfgWide : Config where
  g_bxl_enable_cache := true
  g_bxl_disable_cache_min_entries := 0
  g_bxl_disable_cache_max_hit_pct := 100

/-- A tracker on which caching has already been disabled. -/
def pipDisabled : SandboxedPip where
  clientPid := 1
  processId := 2
  processTreeCount := 1
  counters := { numCacheHits := 7, numCacheMisses := 4 }
  disableCaching := true
  cacheCallCnt := 0
  pathCache := some { tag := 6, count := 9 }
  oldPathCache := some { tag := 3, count := 5 }
  lastPathLookup := some { tag := 0 }

/-- Construction oracle: everything succeeds. -/
def envInitOk : InitEnv where
  superInitOk := true
  famHasErrors := false
  trieAllocOk := true
  trieTag := 4
  tlAllocOk := true
  tlTag := 5

/-- Construction oracle: the manifest payload fails to parse. -/
def envBadFam : InitEnv where
  superInitOk := true
  famHasErrors := true
  trieAllocOk := true
  trieTag := 4
  tlAllocOk := true
  tlTag := 5

/-! ### Claim C1 -/

/-- C1 (counterexample): the claim that a governor evaluation on an
enabled tracker disables caching exactly when the entry count exceeds
`MIN_ENTRIES` and `round(hits / (hits + misses) * 100) < MAX_HIT_PCT`
fails at hits = 2, misses = 1, entry count = 1, `MIN_ENTRIES` = 0,
`MAX_HIT_PCT` = 67: the `PCT` macro truncates the double-precision ratio
to 66, so the code disables caching, while the rounded percentage is 67,
which is not below the threshold. -/
theorem c1_round_rule_fails :
    ¬(((RefreshDisableCaching samplePip sampleCfg sampleEnv).state.disableCaching
        = true) ↔
      ((pathCacheCount samplePip : ℤ) > sampleCfg.g_bxl_disable_cache_min_entries ∧
        specRoundHitPct samplePip.counters.numCacheHits
            samplePip.counters.numCacheMisses <
          sampleCfg.g_bxl_disable_cache_max_hit_pct)) := by
  decide

/-- C1 (amended): for every tracker on which caching is still enabled, a
governor evaluation disables caching exactly when the cache entry count is
strictly greater than `MIN_ENTRIES` and the hit percentage is strictly
less than `MAX_HIT_PCT`, where the hit percentage is the double-precision
value `(hits * 1.0) / (hits + misses) * 100` truncated toward zero by the
`int` cast (not the rounded exact ratio). -/
theorem c1_truncated_threshold_rule (s : SandboxedPip) (cfg : Config)
    (env : RefreshEnv) (t : Trie) (hdis : s.disableCaching = false)
    (hc : s.pathCache = some t)
    (_hnz : 0 < s.counters.numCacheHits + s.counters.numCacheMisses) :
    ((RefreshDisableCaching s cfg env).state.disableCaching = true ↔
      ((t.count : ℤ) > cfg.g_bxl_disable_cache_min_entries ∧
        PCT s.counters.numCacheHits s.counters.numCacheMisses <
          cfg.g_bxl_disable_cache_max_hit_pct)) := by
  rw [refresh_flag_eq_should s cfg env hdis]
  unfold ShouldDisableCaching pathCacheCount
  rw [hc]
  simp

/-- C1 (witness): the amended rule applied to the sample tracker — with
2 hits, 1 miss, 1 entry, `MIN_ENTRIES = 0` and `MAX_HIT_PCT = 67`, the
evaluation disables caching (`PCT 2 1 = 66 < 67`). -/
theorem c1_truncated_threshold_rule_witness :
    (RefreshDisableCaching samplePip sampleCfg sampleEnv).state.disableCaching
        = true ↔
      ((({ tag := 0, count := 1 } : Trie).count : ℤ) >
          sampleCfg.g_bxl_disable_cache_min_entries ∧
        PCT samplePip.counters.numCacheHits samplePip.counters.numCacheMisses <
          sampleCfg.g_bxl_disable_cache_max_hit_pct) :=
  c1_truncated_threshold_rule samplePip sampleCfg sampleEnv
    { tag := 0, count := 1 } rfl rfl (by decide)

/-! ### Claim C2 -/

/-- C2: the `disableCaching_` flag never reverses — on a tracker whose
flag is `true`, `RefreshDisableCaching` itself and both spec-modelled
probe paths of `resolve` (the only operations after construction that
touch the tracker state) leave the flag `true`. -/
theorem c2_flag_one_way (s : SandboxedPip) (cfg : Config) (env : RefreshEnv)
    (grew : Bool) (h : s.disableCaching = true) :
    (RefreshDisableCaching s cfg env).state.disableCaching = true ∧
    (resolveMiss s cfg grew env).state.disableCaching = true ∧
    (resolveHit s cfg env).state.disableCaching = true := by
  refine ⟨?_, ?_, ?_⟩
  · rw [refresh_of_disabled s cfg env h]
    exact h
  · unfold resolveMiss
    rw [refresh_of_disabled _ cfg env (by rw [missEvalState_flag, h])]
    show (missEvalState s grew).disableCaching = true
    rw [missEvalState_flag, h]
  · unfold resolveHit
    rw [refresh_of_disabled _ cfg env (by simp [hitEvalState, bumpHit, h])]
    show (hitEvalState s).disableCaching = true
    simp [hitEvalState, bumpHit, h]

/-- C2 (witness): the one-way flag theorem applied to a concrete disabled
tracker. -/
theorem c2_flag_one_way_witness :
    (RefreshDisableCaching pipDisabled sampleCfg sampleEnv).state.disableCaching
        = true ∧
    (resolveMiss pipDisabled sampleCfg true sampleEnv).state.disableCaching
        = true ∧
    (resolveHit pipDisabled sampleCfg sampleEnv).state.disableCaching = true :=
  c2_flag_one_way pipDisabled sampleCfg sampleEnv true rfl

/-! ### Claim C3 -/

/-- C3 (counterexample): when `Trie::createPathTrie()` fails inside
`RefreshDisableCaching`, the winning compare-and-swap installs the null
result as the active cache: on `pipLowHit` with a failed allocation the
swap wins (the outgoing cache is retired into `oldPathCache_`) and the
active-cache handle afterwards is null, contradicting the claim that the
installed replacement is always a non-null empty instance. -/
theorem c3_null_replacement_installed :
    (RefreshDisableCaching pipLowHit cfgWide envAllocFail).state.disableCaching
        = true ∧
    (RefreshDisableCaching pipLowHit cfgWide envAllocFail).state.oldPathCache
        = pipLowHit.pathCache ∧
    (RefreshDisableCaching pipLowHit cfgWide envAllocFail).state.pathCache
        = none := by
  decide

/-- C3 (amended): whenever a disable transition wins the compare-and-swap
and the allocation of the replacement cache succeeded, the installed
replacement is the freshly allocated cache instance — non-null and with
entry count zero. -/
theorem c3_swap_installs_fresh_empty (s : SandboxedPip) (cfg : Config)
    (env : RefreshEnv) (hdis : s.disableCaching = false)
    (hshould : ShouldDisableCaching s cfg = true)
    (halloc : env.newTrieAllocOk = true) (hcas : env.casWins = true) :
    (RefreshDisableCaching s cfg env).state.pathCache
        = some { tag := env.newTrieTag, count := 0 } ∧
    pathCacheCount (RefreshDisableCaching s cfg env).state = 0 := by
  simp [RefreshDisableCaching, createPathTrie, hdis, hshould, halloc, hcas,
    pathCacheCount]

/-- C3 (witness): the amended statement applied to the sample tracker with
a successful allocation and a winning swap. -/
theorem c3_swap_installs_fresh_empty_witness :
    (RefreshDisableCaching samplePip sampleCfg sampleEnv).state.pathCache
        = some { tag := sampleEnv.newTrieTag, count := 0 } ∧
    pathCacheCount (RefreshDisableCaching samplePip sampleCfg sampleEnv).state
        = 0 :=
  c3_swap_installs_fresh_empty samplePip sampleCfg sampleEnv rfl (by decide)
    rfl rfl

/-! ### Claim C4 -/

/-- C4: in a disable transition, a winning compare-and-swap retires the
outgoing cache instance into `oldPathCache_` and releases nothing, while a
losing compare-and-swap releases exactly the caller's own speculative
replacement and leaves both the active-cache handle and the retired-cache
slot unchanged. -/
theorem c4_cas_outcomes (s : SandboxedPip) (cfg : Config) (env : RefreshEnv)
    (hdis : s.disableCaching = false)
    (hshould : ShouldDisableCaching s cfg = true) :
    (env.casWins = true →
      (RefreshDisableCaching s cfg env).state.oldPathCache = s.pathCache ∧
      (RefreshDisableCaching s cfg env).released = []) ∧
    (env.casWins = false →
      (RefreshDisableCaching s cfg env).state.pathCache = s.pathCache ∧
      (RefreshDisableCaching s cfg env).state.oldPathCache = s.oldPathCache ∧
      (RefreshDisableCaching s cfg env).released =
        (createPathTrie env.newTrieAllocOk env.newTrieTag).toList) := by
  constructor <;> intro hcas <;>
    simp [RefreshDisableCaching, hdis, hshould, hcas]

/-- C4 (witness): both compare-and-swap outcomes exercised on the sample
tracker — the winning call retires the outgoing instance and releases
nothing; the losing call releases only its own speculative trie and leaves
the handles alone. -/
theorem c4_cas_outcomes_witness :
    ((RefreshDisableCaching samplePip sampleCfg sampleEnv).state.oldPathCache
        = samplePip.pathCache ∧
      (RefreshDisableCaching samplePip sampleCfg sampleEnv).released = []) ∧
    ((RefreshDisableCaching samplePip sampleCfg envCasLose).state.pathCache
        = samplePip.pathCache ∧
      (RefreshDisableCaching samplePip sampleCfg envCasLose).state.oldPathCache
        = samplePip.oldPathCache ∧
      (RefreshDisableCaching samplePip sampleCfg envCasLose).released =
        (createPathTrie envCasLose.newTrieAllocOk
          envCasLose.newTrieTag).toList) :=
  ⟨(c4_cas_outcomes samplePip sampleCfg sampleEnv rfl (by decide)).1 rfl,
   (c4_cas_outcomes samplePip sampleCfg envCasLose rfl (by decide)).2 rfl⟩

/-! ### Claim C5 -/

/-- C5: once `cachingDisabled` is already true, `RefreshDisableCaching`
returns true, skips the threshold evaluation and the swap attempt
entirely, releases nothing and leaves every field of the tracker
unchanged. -/
theorem c5_skip_when_disabled (s : SandboxedPip) (cfg : Config)
    (env : RefreshEnv) (h : s.disableCaching = true) :
    RefreshDisableCaching s cfg env =
      { state := s, ret := true, released := [] } :=
  refresh_of_disabled s cfg env h

/-- C5 (witness): the skip theorem applied to a concrete disabled
tracker. -/
theorem c5_skip_when_disabled_witness :
    RefreshDisableCaching pipDisabled sampleCfg sampleEnv =
      { state := pipDisabled, ret := true, released := [] } :=
  c5_skip_when_disabled pipDisabled sampleCfg sampleEnv rfl

/-! ### Claim C6 -/

/-- C6: when the manifest payload fails to parse, or the decision-cache or
per-thread-table allocation fails, `SandboxedPip::create` returns no
object (the partly constructed instance is released inside `create`, so
nothing escapes). -/
theorem c6_create_fails_cleanly (cp pp : ℤ) (cfg : Config) (newOk : Bool)
    (env : InitEnv)
    (h : env.famHasErrors = true ∨ env.trieAllocOk = false ∨
      env.tlAllocOk = false) :
    SandboxedPip.create cp pp cfg newOk env = none := by
  rcases h with h | h | h <;>
    cases h1 : newOk <;> cases h2 : env.superInitOk <;>
      cases h3 : env.famHasErrors <;> cases h4 : env.trieAllocOk <;>
        cases h5 : env.tlAllocOk <;>
          simp_all [SandboxedPip.create, SandboxedPip.init, createPathTrie,
            ThreadLocal.create]

/-- C6 (witness): construction with a malformed manifest payload yields no
object. -/
theorem c6_create_fails_cleanly_witness :
    SandboxedPip.create 1 2 sampleCfg true envBadFam = none :=
  c6_create_fails_cleanly 1 2 sampleCfg true envBadFam (Or.inl rfl)

/-! ### Claim C7 -/

/-- C7: every successful construction yields a tracker holding a freshly
allocated empty decision cache and a per-thread lookup table, zeroed hit
and miss counters, `cachingDisabled = !cachingEnabledByDefault`, a null
retired-cache slot, and tree size 1. -/
theorem c7_create_success_state (cp pp : ℤ) (cfg : Config) (newOk : Bool)
    (env : InitEnv) (s : SandboxedPip)
    (h : SandboxedPip.create cp pp cfg newOk env = some s) :
    s.pathCache = some { tag := env.trieTag, count := 0 } ∧
    s.lastPathLookup = some { tag := env.tlTag } ∧
    s.counters = { numCacheHits := 0, numCacheMisses := 0 } ∧
    s.disableCaching = !cfg.g_bxl_enable_cache ∧
    s.oldPathCache = none ∧
    s.processTreeCount = 1 := by
  cases h1 : newOk <;> cases h2 : env.superInitOk <;>
    cases h3 : env.famHasErrors <;> cases h4 : env.trieAllocOk <;>
      cases h5 : env.tlAllocOk <;>
        simp_all [SandboxedPip.create, SandboxedPip.init, createPathTrie,
          ThreadLocal.create]
  all_goals simp [← h]

/-- C7 (witness): a fully successful construction evaluated concretely —
the resulting tracker satisfies every clause of the claim. -/
theorem c7_create_success_state_witness :
    ({ clientPid := 1, processId := 2, processTreeCount := 1,
       counters := { numCacheHits := 0, numCacheMisses := 0 },
       disableCaching := false, cacheCallCnt := 0,
       pathCache := some { tag := 4, count := 0 }, oldPathCache := none,
       lastPathLookup := some { tag := 5 } } : SandboxedPip).pathCache
        = some { tag := envInitOk.trieTag, count := 0 } ∧
    ({ clientPid := 1, processId := 2, processTreeCount := 1,
       counters := { numCacheHits := 0, numCacheMisses := 0 },
       disableCaching := false, cacheCallCnt := 0,
       pathCache := some { tag := 4, count := 0 }, oldPathCache := none,
       lastPathLookup := some { tag := 5 } } : SandboxedPip).lastPathLookup
        = some { tag := envInitOk.tlTag } ∧
    ({ clientPid := 1, processId := 2, processTreeCount := 1,
       counters := { numCacheHits := 0, numCacheMisses := 0 },
       disableCaching := false, cacheCallCnt := 0,
       pathCache := some { tag := 4, count := 0 }, oldPathCache := none,
       lastPathLookup := some { tag := 5 } } : SandboxedPip).counters
        = { numCacheHits := 0, numCacheMisses := 0 } ∧
    ({ clientPid := 1, processId := 2, processTreeCount := 1,
       counters := { numCacheHits := 0, numCacheMisses := 0 },
       disableCaching := false, cacheCallCnt := 0,
       pathCache := some { tag := 4, count := 0 }, oldPathCache := none,
       lastPathLookup := some { tag := 5 } } : SandboxedPip).disableCaching
        = !sampleCfg.g_bxl_enable_cache ∧
    ({ clientPid := 1, processId := 2, processTreeCount := 1,
       counters := { numCacheHits := 0, numCacheMisses := 0 },
       disableCaching := false, cacheCallCnt := 0,
       pathCache := some { tag := 4, count := 0 }, oldPathCache := none,
       lastPathLookup := some { tag := 5 } } : SandboxedPip).oldPathCache
        = none ∧
    ({ clientPid := 1, processId := 2, processTreeCount := 1,
       counters := { numCacheHits := 0, numCacheMisses := 0 },
       disableCaching := false, cacheCallCnt := 0,
       pathCache := some { tag := 4, count := 0 }, oldPathCache := none,
       lastPathLookup := some { tag := 5 } } : SandboxedPip).processTreeCount
        = 1 :=
  c7_create_success_state 1 2 sampleCfg true envInitOk _ (by decide)

/-! ### Claim C8 -/

/-- C8: `GetPathStringWithoutTypePrefix` (a const member, modelled as a
pure function of the value, so it cannot mutate the receiver) returns the
full path string when the tag is `Win32` (the spec's Standard), the path
string with its first four characters — the recognized root-type marker —
omitted when the tag is `Win32Nt` (ExtendedPrefix) or `LocalDevice`
(DeviceLocal), and null when the tag is `Null`. -/
theorem c8_type_tag_dispatch (p : CanonicalizedPath) :
    (p.type = PathType.Null →
      p.GetPathStringWithTypePrefixOmitted = none) ∧
    (p.type = PathType.Win32 →
      p.GetPathStringWithTypePrefixOmitted = p.GetPathString) ∧
    ((p.type = PathType.Win32Nt ∨ p.type = PathType.LocalDevice) →
      p.GetPathStringWithTypePrefixOmitted =
        p.GetPathString.map (List.drop 4)) := by
  refine ⟨?_, ?_, ?_⟩
  · intro h
    simp [CanonicalizedPath.GetPathStringWithTypePrefixOmitted, h]
  · intro h
    simp [CanonicalizedPath.GetPathStringWithTypePrefixOmitted, h]
  · rintro (h | h) <;>
      simp [CanonicalizedPath.GetPathStringWithTypePrefixOmitted, h]

/-- A `Win32Nt`-tagged canonical path holding the extended-form string. -/
def ntPath : CanonicalizedPath :=
  { type := PathType.Win32Nt
    m_value :=
      some { tag := 0, data := ['\\', '\\', '?', '\\', 'C', ':', '\\', 'x'] } }

/-- A null canonical path (default-constructed). -/
def nullPath : CanonicalizedPath where
  type := PathType.Null
  m_value := none

/-- A `Win32`-tagged canonical path. -/
def win32Path : CanonicalizedPath where
  type := PathType.Win32
  m_value := some { tag := 1, data := ['C', ':', '\\', 'x'] }

/-- C8 (witness): the dispatch theorem applied to concrete values of all
three interesting tags. -/
theorem c8_type_tag_dispatch_witness :
    nullPath.GetPathStringWithTypePrefixOmitted = none ∧
    win32Path.GetPathStringWithTypePrefixOmitted = win32Path.GetPathString ∧
    ntPath.GetPathStringWithTypePrefixOmitted =
      ntPath.GetPathString.map (List.drop 4) :=
  ⟨(c8_type_tag_dispatch nullPath).1 rfl,
   (c8_type_tag_dispatch win32Path).2.1 rfl,
   (c8_type_tag_dispatch ntPath).2.2 (Or.inl rfl)⟩

/-! ### Claim C9 -/

/-- C9: at every governor evaluation the spec-modelled `resolve` paths can
reach — the evaluation runs only after the probe has updated a counter —
the divisor `hits + misses` of the `PCT` computation is positive, so the
percentage expression never divides by zero. -/
theorem c9_divisor_positive (s : SandboxedPip) (grew : Bool) :
    0 < (missEvalState s grew).counters.numCacheHits +
        (missEvalState s grew).counters.numCacheMisses ∧
    0 < (hitEvalState s).counters.numCacheHits +
        (hitEvalState s).counters.numCacheMisses := by
  constructor
  · rw [missEvalState_counters]
    simp
  · simp [hitEvalState, bumpHit]

/-! ### Claim C10 -/

/-- C10: move construction transfers the type tag and the shared string
storage to the new value and leaves the moved-from value null-tagged with
a null storage pointer, so `IsNull()` holds on it afterwards. -/
theorem c10_move_transfers_and_nulls (p : CanonicalizedPath) :
    p.moveConstruct.1.type = p.type ∧
    p.moveConstruct.1.m_value = p.m_value ∧
    p.moveConstruct.2.IsNull = true ∧
    p.moveConstruct.2.m_value = none := by
  simp [CanonicalizedPath.moveConstruct, CanonicalizedPath.IsNull]

end BuildXL
